import Mathlib

/-!
Verification development for the `cyberdog_vision` perception-pipeline
orchestrator (`src/vision_manager.cpp`, `src/gesture_recognition.cpp`,
`include/cyberdog_vision/vision_manager.hpp`).

The C++ code is shallowly embedded: pure helper functions become Lean
functions over `Nat`/`Int`/`Rat` with explicit modular arithmetic where the
C++ uses fixed-width machine integers, and the concurrent scheduler becomes
an explicit labelled transition system over a record of the shared state.
Out-of-bounds vector accesses (undefined behaviour in the C++) are made
observable as `Except` errors or an error flag in the state.
-/

namespace CyberdogVision

/-! ## Machine-integer arithmetic

`sensor_msgs::msg::RegionOfInterest` fields and the `HumanBodyInfo` fields
are `uint32_t`; `GetIOU` mixes them with `int`.  We model `uint32_t` values
as natural numbers below `2^32` with wrap-around arithmetic, and `int` as a
mathematical integer obtained by two's-complement reinterpretation.
-/

/-- Number of values of the C++ `uint32_t` type, `2^32`. -/
def U32 : ℕ := 4294967296

/-- Number of values of the C++ `size_t` type (64-bit platform), `2^64`. -/
def U64 : ℕ := 18446744073709551616

/-- `uint32_t` addition (wraps modulo `2^32`). -/
def u32add (a b : ℕ) : ℕ := (a + b) % U32

/-- `uint32_t` multiplication (wraps modulo `2^32`). -/
def u32mul (a b : ℕ) : ℕ := (a * b) % U32

/-- `uint32_t` subtraction: wraps modulo `2^32` when the true difference is
negative.  For `a b < 2^32` this is `(a - b) mod 2^32`. -/
def u32sub (a b : ℕ) : ℕ := (a % U32 + (U32 - b % U32)) % U32

/-- Reinterpretation of a `uint32_t` value as a C++ 32-bit `int`
(two's complement). -/
def toInt32 (v : ℕ) : ℤ :=
  if v % U32 < 2147483648 then ((v % U32 : ℕ) : ℤ) else ((v % U32 : ℕ) : ℤ) - (U32 : ℤ)

/-- Conversion of a C++ `int` value to `uint32_t` (reduction modulo `2^32`,
as the usual arithmetic conversions do when an `int` meets an unsigned
operand). -/
def intToU32 (z : ℤ) : ℕ := (z % (U32 : ℤ)).toNat

/-! ## Geometry data -/

/-- `HumanBodyInfo` (from the external AI SDK headers): a detected body
rectangle.  All four fields are `uint32_t`-valued.  The score field is not
used by any embedded function. -/
structure HumanBodyInfo where
  left : ℕ
  top : ℕ
  width : ℕ
  height : ℕ
deriving DecidableEq, Repr

/-- `sensor_msgs::msg::RegionOfInterest`: `uint32_t` fields. -/
structure RegionOfInterest where
  x_offset : ℕ
  y_offset : ℕ
  width : ℕ
  height : ℕ
deriving DecidableEq, Repr

/-- `cv::Rect` with the coordinate values that occur in this code base
(always nonnegative, coming from `uint32_t` detections). -/
structure Rect where
  x : ℕ
  y : ℕ
  width : ℕ
  height : ℕ
deriving DecidableEq, Repr

/-! ## `GetIOU` (vision_manager.cpp lines 727-744)

```
int w = std::max(std::min((b1.left + b1.width), (b2.x_offset + b2.width))
                 - std::max(b1.left, b2.x_offset), (uint32_t)0);
int h = ... (same for top/height) ...;
return w * h / static_cast<double>(b1.width * b1.height
                                   + b2.width * b2.height - w * h);
```

All inner arithmetic is `uint32_t` (so the `std::max(.., 0u)` clamp is a
no-op and a negative true difference wraps around); the results are then
converted to `int`, multiplied as `int`, and divided as `double`.  The
denominator is computed in `uint32_t` (the `int` product is converted back
to unsigned) and then cast to `double`.  We model the exact `double`
division by rational division (`Rat.divInt`; a zero denominator, which the
claims never produce, yields 0 here and an IEEE infinity or NaN in C++);
every value this development compares against is exactly representable. -/
def GetIOU (b1 : HumanBodyInfo) (b2 : RegionOfInterest) : ℚ :=
  let wU : ℕ := max (u32sub (min (u32add b1.left b1.width) (u32add b2.x_offset b2.width))
                            (max b1.left b2.x_offset)) 0
  let hU : ℕ := max (u32sub (min (u32add b1.top b1.height) (u32add b2.y_offset b2.height))
                            (max b1.top b2.y_offset)) 0
  let w : ℤ := toInt32 wU
  let h : ℤ := toInt32 hU
  let num : ℤ := w * h
  let den : ℕ := u32sub (u32add (u32mul b1.width b1.height) (u32mul b2.width b2.height))
                        (intToU32 num)
  Rat.divInt num (den : ℤ)

/-! ## `GetMatchBody` scan (vision_manager.cpp lines 991-1025)

```
for (size_t i = body_results_.body_infos.size() - 1; i > 0 && !is_found; --i) {
  double max_score = 0;
  for (size_t j = 0; j < body_results_.body_infos[i].size(); ++j) {
    double score = GetIOU(body_results_.body_infos[i][j], roi);
    if (score > max_score && score > 0.5) { max_score = score; track_rect = ...; }
  }
  if (max_score > 0.5) { is_found = true; track_img = body_results_.detection_img.img; }
}
```

The history list is in `std::vector` order: index 0 is the oldest entry,
the last element the most recent.  On an empty history the initial index
`size() - 1` wraps around to `2^64 - 1` (`size_t`), and the loop body then
reads `body_infos[2^64 - 1]`, an out-of-bounds access; we surface such an
access as `Except.error` carrying the offending index. -/

/-- The literal `0.5` of the matching threshold (exactly representable in
`double`). -/
def half : ℚ := mkRat 1 2

/-- Inner loop over one history entry: running maximum score and running
best rectangle, starting from the given accumulator values (`max_score` is
re-initialised to 0 per entry by the caller; `track_rect` persists). -/
def entryScan (roi : RegionOfInterest) : List HumanBodyInfo → ℚ → Rect → ℚ × Rect
  | [], ms, tr => (ms, tr)
  | b :: rest, ms, tr =>
      let score := GetIOU b roi
      if ms < score ∧ half < score then
        entryScan roi rest score ⟨b.left, b.top, b.width, b.height⟩
      else
        entryScan roi rest ms tr

/-- Outer loop of `GetMatchBody`, indexed by the current `size_t` loop
variable `i`; the loop runs while `i > 0` and no match was found.
`Except.error i` records an out-of-bounds read of `body_infos[i]`. -/
def scanLoop (hist : List (List HumanBodyInfo)) (roi : RegionOfInterest) :
    ℕ → Rect → Except ℕ (Option (ℕ × Rect))
  | 0, _ => .ok none
  | i + 1, tr =>
      if h : i + 1 < hist.length then
        let res := entryScan roi (hist.get ⟨i + 1, h⟩) 0 tr
        if half < res.1 then .ok (some (i + 1, res.2))
        else scanLoop hist roi i res.2
      else .error (i + 1)

/-- The initial loop index `body_infos.size() - 1` in `size_t` arithmetic:
wraps to `2^64 - 1` on an empty history. -/
def startIndex (n : ℕ) : ℕ := if n = 0 then U64 - 1 else n - 1

/-- The complete history scan of `GetMatchBody` (`track_rect` is a
default-constructed `cv::Rect` before the loop). -/
def GetMatchBodyScan (hist : List (List HumanBodyInfo)) (roi : RegionOfInterest) :
    Except ℕ (Option (ℕ × Rect)) :=
  scanLoop hist roi (startIndex hist.length) ⟨0, 0, 0, 0⟩

/-- Return value and tracker effect of `GetMatchBody` (lines 991-1025).
`detectionImg` is the frame id of `body_results_.detection_img` (the single
most recent detection image kept by `BodyResults`; the history entries do
not carry images).  `setTrackerOk` is the outcome of the external
`reid_ptr_->SetTracker` call.  `tracker` records what the external tracker
was initialised with.  The `Except` error propagates an out-of-bounds
history read. -/
def GetMatchBody (hist : List (List HumanBodyInfo)) (roi : RegionOfInterest)
    (detectionImg : ℕ) (setTrackerOk : Bool) (tracker : Option (ℕ × Rect)) :
    Except ℕ (ℤ × Option (ℕ × Rect)) :=
  match GetMatchBodyScan hist roi with
  | .error i => .error i
  | .ok none => .ok (-1, tracker)
  | .ok (some (_, rect)) =>
      if setTrackerOk then .ok (0, some (detectionImg, rect))
      else .ok (-1, tracker)

/-- Processing status enum values used by the node. -/
inductive ProcStatus
  | selecting
  | tracking
deriving DecidableEq, Repr

/-- The `open_reid_` branch of `TrackingService` (lines 1066-1074): calls
`GetMatchBody` under the history lock; on nonzero return the response is
`success = false` and the status is untouched, otherwise `success = true`
and the status becomes `STATUS_TRACKING`. -/
def TrackingServiceReid (hist : List (List HumanBodyInfo)) (roi : RegionOfInterest)
    (detectionImg : ℕ) (setTrackerOk : Bool) (tracker : Option (ℕ × Rect))
    (status : ProcStatus) :
    Except ℕ (Bool × Option (ℕ × Rect) × ProcStatus) :=
  match GetMatchBody hist roi detectionImg setTrackerOk tracker with
  | .error i => .error i
  | .ok (r, tracker') =>
      if r ≠ 0 then .ok (false, tracker', status)
      else .ok (true, tracker', .tracking)

/-! ## Frame Report records -/

/-- One gesture result (`GestureInfo` after the message conversion of
lines 827-833): a rectangle and a class label. -/
structure GestureEntry where
  rect : Rect
  label : ℤ
deriving DecidableEq, Repr

/-- One body entry of the Frame Report (`protocol::msg::Body`).  A `none`
in `gesture`/`reid` models the default-constructed (never written) field;
`keypoints` is the raw keypoint vector (`Point2f` coordinates modelled as
rationals).  The `reid` field holds the person id that
`std::to_string(id)` would render. -/
structure ReportBody where
  roi : Rect
  gesture : Option GestureEntry
  keypoints : List (ℚ × ℚ)
  reid : Option ℤ
deriving DecidableEq, Repr

/-- The accumulating Frame Report (`algo_result_ : PersonInfoT`), reduced
to the fields the claims are about.  `faceCount` abstracts the face list
written by the Face worker. -/
structure Report where
  bodyInfos : List ReportBody
  faceCount : ℕ
  trackRes : Option Rect
deriving DecidableEq, Repr

/-- The default-constructed report that `algo_result_` is reset to after a
publish. -/
def emptyReport : Report := ⟨[], 0, none⟩

/-! ## `AddReid` (vision_manager.cpp lines 746-768)

```
void AddReid(BodyInfoT & body_info, int id, const cv::Rect & tracked) {
  if (0 != body_info.infos.size()) { return; }
  double iou_max = 0.0; int index = 0;
  for (size_t i = 0; i < body_info.infos.size(); ++i) { ... }
  body_info.infos[index].reid = std::to_string(id);
}
```

The guard returns early exactly when the body list is NON-empty, so the
loop and the final write only run on an empty list; the loop then performs
zero iterations, leaving `index = 0`, and `infos[0]` on the empty vector is
an out-of-bounds write.  `Except.error i` models the out-of-bounds write at
index `i`. -/

/-- The `iou_max`/`index` selection loop of `AddReid`, with the running
position `i`. -/
def addReidLoop (tracked : Rect) : List ReportBody → ℕ → ℚ → ℕ → ℚ × ℕ
  | [], _, iouMax, index => (iouMax, index)
  | b :: rest, i, iouMax, index =>
      let body : HumanBodyInfo := ⟨tracked.x, tracked.y, tracked.width, tracked.height⟩
      let iou := GetIOU body ⟨b.roi.x, b.roi.y, b.roi.width, b.roi.height⟩
      if iouMax < iou then addReidLoop tracked rest (i + 1) iou i
      else addReidLoop tracked rest (i + 1) iouMax index

/-- `AddReid` itself. -/
def AddReid (infos : List ReportBody) (id : ℤ) (tracked : Rect) :
    Except ℕ (List ReportBody) :=
  if infos.length ≠ 0 then .ok infos
  else
    let sel := addReidLoop tracked infos 0 0 0
    match infos.get? sel.2 with
    | some b => .ok (infos.set sel.2 { b with reid := some id })
    | none => .error sel.2

/-! ## `SetAlgoState` / `AlgoManagerService` (lines 1027-1109) -/

/-- The six algorithm enable flags of `VisionManager`. -/
structure AlgoFlags where
  open_face : Bool
  open_body : Bool
  open_gesture : Bool
  open_keypoints : Bool
  open_reid : Bool
  open_focus : Bool
deriving DecidableEq, Repr

/-- All-disabled flag state (constructor defaults, and the state after
`ResetAlgo`). -/
def allClosed : AlgoFlags := ⟨false, false, false, false, false, false⟩

/-- Modelled from the external `protocol::msg::AlgoList` message: the six
algorithm module identifiers.  Their concrete numeric values live outside
this repository; only their distinctness is relied on. -/
def ALGO_FACE : ℕ := 0
/-- See `ALGO_FACE`. -/
def ALGO_BODY : ℕ := 1
/-- See `ALGO_FACE`. -/
def ALGO_GESTURE : ℕ := 2
/-- See `ALGO_FACE`. -/
def ALGO_KEYPOINTS : ℕ := 3
/-- See `ALGO_FACE`. -/
def ALGO_REID : ℕ := 4
/-- See `ALGO_FACE`. -/
def ALGO_FOCUS : ℕ := 5

/-- `SetAlgoState` (lines 1027-1055): a switch on `algo_list.algo_module`
assigning one flag; the `default` case does nothing.  (The `ALGO_FACE`
enable case additionally reloads the on-disk face library, an I/O effect
outside the flag state.) -/
def SetAlgoState (flags : AlgoFlags) (algo_module : ℕ) (value : Bool) : AlgoFlags :=
  if algo_module = ALGO_FACE then { flags with open_face := value }
  else if algo_module = ALGO_BODY then { flags with open_body := value }
  else if algo_module = ALGO_GESTURE then { flags with open_gesture := value }
  else if algo_module = ALGO_KEYPOINTS then { flags with open_keypoints := value }
  else if algo_module = ALGO_REID then { flags with open_reid := value }
  else if algo_module = ALGO_FOCUS then { flags with open_focus := value }
  else flags

/-- Modelled from the external `protocol::srv::AlgoManager` response
constants; only their identity matters. -/
def ENABLE_SUCCESS : ℕ := 0
/-- See `ENABLE_SUCCESS`. -/
def DISABLE_SUCCESS : ℕ := 0

/-- `AlgoManagerService` (lines 1094-1109): apply every entry of
`algo_enable` with `true`, then every entry of `algo_disable` with `false`,
then unconditionally report `ENABLE_SUCCESS` and `DISABLE_SUCCESS`. -/
def AlgoManagerService (algo_enable algo_disable : List ℕ) (flags : AlgoFlags) :
    AlgoFlags × ℕ × ℕ :=
  let f1 := algo_enable.foldl (fun f a => SetAlgoState f a true) flags
  let f2 := algo_disable.foldl (fun f a => SetAlgoState f a false) f1
  (f2, ENABLE_SUCCESS, DISABLE_SUCCESS)

/-! ## `CallService` and the lifecycle transitions (lines 54-89, 1279-1313)

`CallService` first waits up to 10 seconds for the camera service to
appear; if that wait fails it returns `false`.  Otherwise it sends the
request asynchronously with a completion callback and returns `true`
immediately: the callback's boolean (remote result within the bounded
wait) is computed but never consumed. -/

/-- Outcome of the remote camera-service call as seen by the completion
callback. -/
inductive RemoteOutcome
  | success -- future ready within the timeout, result == 0
  | failure -- future ready, nonzero result
  | timedOut -- future not ready within the timeout
deriving DecidableEq, Repr

/-- The completion callback of `CallService` (lines 1297-1309).  Its return
value is discarded by the surrounding code. -/
def clientCallback : RemoteOutcome → Bool
  | .success => true
  | .failure => false
  | .timedOut => false

/-- `CallService` (lines 1279-1313): `false` exactly when
`wait_for_service(10s)` fails (whether or not rclcpp is shutting down);
otherwise `true`, independent of the remote call's own outcome. -/
def CallService (serviceAvailable : Bool) (remote : RemoteOutcome) : Bool :=
  if serviceAvailable = false then false
  else (fun _ => true) (clientCallback remote)

/-- The node state touched by the lifecycle callbacks. -/
structure NodeState where
  is_activate : Bool
  threadsRunning : Bool
  flags : AlgoFlags
  focusTrackerSet : Bool
  reidTrackerSet : Bool
  status : ProcStatus
deriving DecidableEq, Repr

/-- Lifecycle transition results. -/
inductive LcResult
  | SUCCESS
  | FAILURE
deriving DecidableEq, Repr

/-- `ResetAlgo` (lines 316-326): reset both trackers and clear every enable
flag. -/
def ResetAlgo (st : NodeState) : NodeState :=
  { st with focusTrackerSet := false, reidTrackerSet := false, flags := allClosed }

/-- `on_activate` (lines 54-70): fails (state untouched) iff `CallService`
returns false, i.e. iff the camera service is unavailable; otherwise sets
`is_activate_`, spawns all threads and sets the selecting status. -/
def on_activate (st : NodeState) (serviceAvailable : Bool) (remote : RemoteOutcome) :
    LcResult × NodeState :=
  if CallService serviceAvailable remote = false then (.FAILURE, st)
  else (.SUCCESS,
    { st with is_activate := true, threadsRunning := true, status := .selecting })

/-- `on_deactivate` (lines 72-89): clears `is_activate_`, joins all threads
(`DestoryThread`) and runs `ResetAlgo` BEFORE attempting to stop the camera
stream; a failing stop call only changes the returned result. -/
def on_deactivate (st : NodeState) (serviceAvailable : Bool) (remote : RemoteOutcome) :
    LcResult × NodeState :=
  let st1 := ResetAlgo { st with is_activate := false, threadsRunning := false }
  if CallService serviceAvailable remote = false then (.FAILURE, st1)
  else (.SUCCESS, st1)

/-! ## Face enrollment (`FaceDetProc`, lines 1215-1277, and the `ADD_FACE`
service branch, lines 1121-1132)

The loop runs while `difftime(now, start) < 40 && face_detect_`.  Each
iteration clears `get_face_timeout`, waits for a frame, runs the external
`checkFacePose`; on pose code 0 it checks for a duplicate (match score
above 0.65 turns the code into 17) or caches the feature; it then publishes
the resulting code UNCONDITIONALLY and breaks only on 0 or 17, otherwise it
sets `get_face_timeout` again.  After the loop, code 3 (timeout) is
published iff `get_face_timeout && face_detect_`. -/

/-- External observations of one loop iteration: elapsed whole seconds at
the loop-condition check, the `face_detect_` flag at that check, the
`checkFacePose` return code, and whether the duplicate check
(`match_info.size() > 0 && match_info[0].match_score > 0.65`) fires. -/
structure EnrollObs where
  elapsed : ℕ
  faceDetect : Bool
  poseRet : ℤ
  duplicateHigh : Bool
deriving DecidableEq, Repr

/-- The enrollment loop: returns the list of published result codes and the
value of `get_face_timeout` when the loop exits.  The boolean argument is
the current `get_face_timeout` (initially `true`). -/
def faceDetLoop : List EnrollObs → Bool → List ℤ × Bool
  | [], gft => ([], gft)
  | o :: rest, gft =>
      if o.elapsed < 40 ∧ o.faceDetect then
        let ret : ℤ := if o.poseRet = 0 then (if o.duplicateHigh then 17 else 0) else o.poseRet
        if ret = 0 ∨ ret = 17 then ([ret], false)
        else
          let r := faceDetLoop rest true
          (ret :: r.1, r.2)
      else ([], gft)

/-- `FaceDetProc`: the loop followed by the timeout publication
(`if (get_face_timeout && face_detect_) publishFaceResult(3, ...)`);
`finalFaceDetect` is the `face_detect_` value at that final check. -/
def FaceDetProc (obs : List EnrollObs) (finalFaceDetect : Bool) : List ℤ :=
  let r := faceDetLoop obs true
  if r.2 ∧ finalFaceDetect then r.1 ++ [3] else r.1

/-- The `ADD_FACE` branch of `FaceManagerService` (lines 1121-1132), keyed
on the length of the requested user name: an empty name yields the
synchronous error result `-1` and starts no detection task (and publishes
nothing); otherwise result `0` and the `FaceDetProc` task is spawned. -/
def addFaceRequest (usernameLength : ℕ) : ℤ × Bool :=
  if usernameLength = 0 then (-1, false) else (0, true)

/-! ## Report field conversions (the `Convert` overloads) -/

/-- `Convert(header, BodyFrameInfo, BodyInfoT)` (lines 513-526): clears the
report's body list and repopulates it positionally from the detection
result; all other `BodyT` fields stay default-constructed. -/
def ConvertBody (infos : List HumanBodyInfo) : List ReportBody :=
  infos.map fun b => ⟨⟨b.left, b.top, b.width, b.height⟩, none, [], none⟩

/-- The in-place loop of `Convert(vector<GestureInfo>, BodyInfoT)`
(lines 827-833): writes gesture entry `i` onto body entry `i`.  The case of
a body list shorter than the gesture list is the out-of-bounds write,
excluded by the guard in `ConvertGesture`. -/
def convertGestureGo : List GestureEntry → List ReportBody → List ReportBody
  | [], bs => bs
  | _ :: _, [] => []
  | g :: gs, b :: bs => { b with gesture := some g } :: convertGestureGo gs bs

/-- `Convert(vector<GestureInfo>, BodyInfoT)`: the loop runs over the
gesture list with no bounds check against the body list; `none` models the
out-of-bounds vector write when the gesture list is longer. -/
def ConvertGesture (from_ : List GestureEntry) (dst : List ReportBody) :
    Option (List ReportBody) :=
  if from_.length ≤ dst.length then some (convertGestureGo from_ dst) else none

/-- `kKeypointsNum` (line 30). -/
def kKeypointsNum : ℕ := 17

/-- `sizeof(cv::Point2f)` on the target platform (two 32-bit floats). -/
def sizeofPoint2f : ℕ := 8

/-- The `keypoints.resize(kKeypointsNum * sizeof(cv::Point2f))` call of
lines 891-892: resize to exactly 136 elements (default `KeypointT` is the
origin), before the real keypoints are pushed back. -/
def resizeKeypoints (old : List (ℚ × ℚ)) : List (ℚ × ℚ) :=
  old.take (kKeypointsNum * sizeofPoint2f) ++
    List.replicate (kKeypointsNum * sizeofPoint2f - old.length) (0, 0)

/-- The in-place loop of `Convert(vector<vector<Point2f>>, BodyInfoT)`
(lines 889-900). -/
def convertKeypointsGo : List (List (ℚ × ℚ)) → List ReportBody → List ReportBody
  | [], bs => bs
  | _ :: _, [] => []
  | pts :: rest, b :: bs =>
      { b with keypoints := resizeKeypoints b.keypoints ++ pts } :: convertKeypointsGo rest bs

/-- `Convert(vector<vector<Point2f>>, BodyInfoT)`: no bounds check against
the body list; `none` models the out-of-bounds write. -/
def ConvertKeypoints (from_ : List (List (ℚ × ℚ))) (dst : List ReportBody) :
    Option (List ReportBody) :=
  if from_.length ≤ dst.length then some (convertKeypointsGo from_ dst) else none

/-! ## The pipeline scheduler as a labelled transition system

Threads: `ImageProc` (frame producer side), `MainAlgoManager`,
`DependAlgoManager`, and the six workers.  Each critical section or local
step of the C++ becomes one atomic action.  The Body and Gesture workers
are split into their separate critical sections (consume trigger / run the
collaborator and fill `body_results_` / store into `algo_result_`), which
is where the claims need the fine interleavings; the four remaining workers
are modelled as single consume-run-store actions.

`processNum` is the single shared `algo_proc_.process_num` that BOTH stage
managers use as their publish gate (lines 399-417 and 466-492).
`oobWrite` becomes true when a store performs an out-of-bounds vector
write (undefined behaviour in the C++). -/

/-- Worker identifiers. -/
inductive Wk
  | body
  | face
  | focus
  | reid
  | gesture
  | keypoints
deriving DecidableEq, Repr

/-- `buf_size_` (constructor, line 37): capacity of the detection history. -/
def bufSize : ℕ := 6

/-- The shared state of the scheduler. -/
structure PipeState where
  flags : AlgoFlags
  imgFilled : Bool
  frameCount : ℕ
  calledBody : Bool
  calledFace : Bool
  calledFocus : Bool
  calledReid : Bool
  calledGesture : Bool
  calledKeypoints : Bool
  processNum : ℤ
  bodyFilled : Bool
  bodyHistory : List (List HumanBodyInfo)
  detectionImg : ℕ
  bodyPhase : ℕ
  bodySnapshotImg : ℕ
  bodyPending : List HumanBodyInfo
  gesturePhase : ℕ
  gesturePending : List GestureEntry
  gesturePendingOk : Bool
  mainPC : ℕ
  depPC : ℕ
  report : Report
  published : List (Bool × Report)
  oobWrite : Bool
deriving DecidableEq, Repr

/-- The trigger flag of a given worker. -/
def calledOf (σ : PipeState) : Wk → Bool
  | .body => σ.calledBody
  | .face => σ.calledFace
  | .focus => σ.calledFocus
  | .reid => σ.calledReid
  | .gesture => σ.calledGesture
  | .keypoints => σ.calledKeypoints

/-- `MainAlgoManager`'s publish condition (line 400): no stage-2 algorithm
enabled and at least one stage-1 algorithm enabled. -/
def mainGate (σ : PipeState) : Bool :=
  !σ.flags.open_gesture && !σ.flags.open_keypoints && !σ.flags.open_reid &&
    (σ.flags.open_body || σ.flags.open_face || σ.flags.open_focus)

/-- `DependAlgoManager`'s publish condition (line 467). -/
def depGate (σ : PipeState) : Bool :=
  σ.flags.open_gesture || σ.flags.open_keypoints || σ.flags.open_reid

/-- Action labels.  Collaborator outputs (detections, gesture results,
keypoints, the ReID person id and box, face count, focus result) are label
parameters: the inference engines are external black boxes. -/
inductive Lbl
  | imgArrive
  | mainWake
  | mainTrigBody
  | mainTrigFace
  | mainTrigFocus
  | mainPub
  | depWake
  | depTrigReid
  | depTrigGesture
  | depTrigKeypoints
  | depPub
  | bodyConsume
  | bodyDetect (res : Option (List HumanBodyInfo))
  | bodyStore
  | faceRun (n : ℕ)
  | focusRun (ok : Bool) (r : Rect)
  | reidRun (pid : ℤ) (r : Rect)
  | gestureConsume
  | gestureInfer (res : Option (List GestureEntry))
  | gestureStore
  | keypointsRun (res : List (List (ℚ × ℚ)))
deriving DecidableEq, Repr

/-- Guard of each action (when the corresponding C++ step can run). -/
def en : Lbl → PipeState → Bool
  | .imgArrive, _ => true
  | .mainWake, σ => σ.imgFilled && σ.mainPC == 0
  | .mainTrigBody, σ => σ.mainPC == 1
  | .mainTrigFace, σ => σ.mainPC == 2
  | .mainTrigFocus, σ => σ.mainPC == 3
  | .mainPub, σ => σ.mainPC == 4 && (!mainGate σ || σ.processNum == 0)
  | .depWake, σ => σ.bodyFilled && σ.depPC == 0
  | .depTrigReid, σ => σ.depPC == 1
  | .depTrigGesture, σ => σ.depPC == 2
  | .depTrigKeypoints, σ => σ.depPC == 3
  | .depPub, σ => σ.depPC == 4 && (!depGate σ || σ.processNum == 0)
  | .bodyConsume, σ => σ.calledBody && σ.bodyPhase == 0
  | .bodyDetect _, σ => σ.bodyPhase == 1
  | .bodyStore, σ => σ.bodyPhase == 2
  | .faceRun _, σ => σ.calledFace
  | .focusRun _ _, σ => σ.calledFocus
  | .reidRun _ _, σ => σ.calledReid && !σ.bodyHistory.isEmpty
  | .gestureConsume, σ => σ.calledGesture && σ.gesturePhase == 0
  | .gestureInfer _, σ => σ.gesturePhase == 1 && !σ.bodyHistory.isEmpty
  | .gestureStore, σ => σ.gesturePhase == 2
  | .keypointsRun _, σ => σ.calledKeypoints && !σ.bodyHistory.isEmpty

/-- Effect of each action.

* `imgArrive`: `ImageProc` lines 344-351 (replace the latest frame, set
  `is_filled`, notify).
* `mainWake`/`depWake`: the managers' wake-up sections (lines 358-363 and
  425-430).
* `mainTrig*`/`depTrig*`: the six skip-if-already-triggered trigger blocks
  (lines 366-397 and 433-464) — increment the shared counter and set the
  flag only when the flag is clear.
* `mainPub`/`depPub`: the publish blocks (lines 399-417 and 466-492) —
  publish and reset the report only when the gate condition holds.
* `bodyConsume`/`bodyDetect`/`bodyStore`: `BodyDet` lines 530-544 /
  546-580 (history append with eviction, set `is_filled`, notify) / 582-594
  (decrement counter, write the report's body list — also on detect
  failure, with the empty local `infos`).
* `faceRun`, `focusRun`, `reidRun`, `keypointsRun`: the corresponding
  worker loop bodies collapsed to one atomic action.
* `gestureConsume`/`gestureInfer`/`gestureStore`: `GestureRecognize`
  lines 838-843 / 846-855 / 871-885. -/
def app : Lbl → PipeState → PipeState
  | .imgArrive, σ => { σ with imgFilled := true, frameCount := σ.frameCount + 1 }
  | .mainWake, σ => { σ with imgFilled := false, mainPC := 1 }
  | .mainTrigBody, σ =>
      if σ.flags.open_body && !σ.calledBody then
        { σ with calledBody := true, processNum := σ.processNum + 1, mainPC := 2 }
      else { σ with mainPC := 2 }
  | .mainTrigFace, σ =>
      if σ.flags.open_face && !σ.calledFace then
        { σ with calledFace := true, processNum := σ.processNum + 1, mainPC := 3 }
      else { σ with mainPC := 3 }
  | .mainTrigFocus, σ =>
      if σ.flags.open_focus && !σ.calledFocus then
        { σ with calledFocus := true, processNum := σ.processNum + 1, mainPC := 4 }
      else { σ with mainPC := 4 }
  | .mainPub, σ =>
      if mainGate σ then
        { σ with published := σ.published ++ [(true, σ.report)],
                 report := emptyReport, mainPC := 0 }
      else { σ with mainPC := 0 }
  | .depWake, σ => { σ with bodyFilled := false, depPC := 1 }
  | .depTrigReid, σ =>
      if σ.flags.open_reid && !σ.calledReid then
        { σ with calledReid := true, processNum := σ.processNum + 1, depPC := 2 }
      else { σ with depPC := 2 }
  | .depTrigGesture, σ =>
      if σ.flags.open_gesture && !σ.calledGesture then
        { σ with calledGesture := true, processNum := σ.processNum + 1, depPC := 3 }
      else { σ with depPC := 3 }
  | .depTrigKeypoints, σ =>
      if σ.flags.open_keypoints && !σ.calledKeypoints then
        { σ with calledKeypoints := true, processNum := σ.processNum + 1, depPC := 4 }
      else { σ with depPC := 4 }
  | .depPub, σ =>
      if depGate σ then
        { σ with published := σ.published ++ [(false, σ.report)],
                 report := emptyReport, depPC := 0 }
      else { σ with depPC := 0 }
  | .bodyConsume, σ =>
      { σ with calledBody := false, bodyPhase := 1, bodySnapshotImg := σ.frameCount }
  | .bodyDetect res, σ =>
      match res with
      | some infos =>
          { σ with
              bodyHistory :=
                (if bufSize ≤ σ.bodyHistory.length then σ.bodyHistory.drop 1
                 else σ.bodyHistory) ++ [infos],
              detectionImg := σ.bodySnapshotImg,
              bodyFilled := true,
              bodyPending := infos,
              bodyPhase := 2 }
      | none => { σ with bodyPending := [], bodyPhase := 2 }
  | .bodyStore, σ =>
      { σ with processNum := σ.processNum - 1,
               report := { σ.report with bodyInfos := ConvertBody σ.bodyPending },
               bodyPhase := 0 }
  | .faceRun n, σ =>
      { σ with calledFace := false, processNum := σ.processNum - 1,
               report := { σ.report with faceCount := n } }
  | .focusRun ok r, σ =>
      { σ with calledFocus := false, processNum := σ.processNum - 1,
               report := if ok then { σ.report with trackRes := some r } else σ.report }
  | .reidRun pid r, σ =>
      if pid ≠ -1 then
        match AddReid σ.report.bodyInfos pid r with
        | .ok l =>
            { σ with calledReid := false, processNum := σ.processNum - 1,
                     report := { σ.report with bodyInfos := l, trackRes := some r } }
        | .error _ =>
            { σ with calledReid := false, processNum := σ.processNum - 1,
                     report := { σ.report with trackRes := some r }, oobWrite := true }
      else { σ with calledReid := false, processNum := σ.processNum - 1 }
  | .gestureConsume, σ => { σ with calledGesture := false, gesturePhase := 1 }
  | .gestureInfer res, σ =>
      { σ with gesturePhase := 2, gesturePending := res.getD [],
               gesturePendingOk := res.isSome }
  | .gestureStore, σ =>
      if σ.gesturePendingOk then
        match ConvertGesture σ.gesturePending σ.report.bodyInfos with
        | some l =>
            { σ with processNum := σ.processNum - 1, gesturePhase := 0,
                     report := { σ.report with bodyInfos := l } }
        | none =>
            { σ with processNum := σ.processNum - 1, gesturePhase := 0, oobWrite := true }
      else { σ with processNum := σ.processNum - 1, gesturePhase := 0 }
  | .keypointsRun res, σ =>
      match ConvertKeypoints res σ.report.bodyInfos with
      | some l =>
          { σ with calledKeypoints := false, processNum := σ.processNum - 1,
                   report := { σ.report with bodyInfos := l } }
      | none =>
          { σ with calledKeypoints := false, processNum := σ.processNum - 1,
                   oobWrite := true }

/-- One step of the system: the action's guard holds and the state is
updated by its effect. -/
def Step (l : Lbl) (σ σ' : PipeState) : Prop := en l σ = true ∧ σ' = app l σ

/-- Some action can take `σ` to `σ'`. -/
def StepAny (σ σ' : PipeState) : Prop := ∃ l, Step l σ σ'

/-- Reachability along any interleaving. -/
def Reach : PipeState → PipeState → Prop := Relation.ReflTransGen StepAny

/-- Run a list of actions as state transformers (ignoring guards). -/
def runLbls (ls : List Lbl) (σ : PipeState) : PipeState :=
  ls.foldl (fun s l => app l s) σ

/-- Every guard along the list holds: the list is a genuine interleaving. -/
def Accepts : List Lbl → PipeState → Bool
  | [], _ => true
  | l :: ls, σ => en l σ && Accepts ls (app l σ)

/-- The state of the system right after activation. -/
def initState (fl : AlgoFlags) : PipeState where
  flags := fl
  imgFilled := false
  frameCount := 0
  calledBody := false
  calledFace := false
  calledFocus := false
  calledReid := false
  calledGesture := false
  calledKeypoints := false
  processNum := 0
  bodyFilled := false
  bodyHistory := []
  detectionImg := 0
  bodyPhase := 0
  bodySnapshotImg := 0
  bodyPending := []
  gesturePhase := 0
  gesturePending := []
  gesturePendingOk := false
  mainPC := 0
  depPC := 0
  report := emptyReport
  published := []
  oobWrite := false

/-- Number of Frame Reports published by `MainAlgoManager` (stage 1). -/
def mainPubCount (σ : PipeState) : ℕ := (σ.published.filter (fun p => p.1)).length

/-- Number of Frame Reports published by `DependAlgoManager` (stage 2). -/
def depPubCount (σ : PipeState) : ℕ := (σ.published.filter (fun p => !p.1)).length

/-- A fully drained state: both managers back at their wait points, no
trigger pending, no worker mid-invocation, shared counter zero. -/
def Quiescent (σ : PipeState) : Bool :=
  σ.mainPC == 0 && σ.depPC == 0 && !σ.imgFilled && !σ.bodyFilled &&
  !σ.calledBody && !σ.calledFace && !σ.calledFocus && !σ.calledReid &&
  !σ.calledGesture && !σ.calledKeypoints &&
  σ.bodyPhase == 0 && σ.gesturePhase == 0 && σ.processNum == 0

/-- A sample detection used by the concrete schedules. -/
def sampleBody : HumanBodyInfo := ⟨100, 100, 80, 200⟩

/-- A sample gesture result used by the concrete schedules. -/
def sampleGesture : GestureEntry := ⟨⟨110, 120, 30, 30⟩, 4⟩

/-- The canonical sequential schedule of one cycle for a given flag
configuration: one frame arrives, the main manager wakes and triggers the
enabled stage-1 workers, each triggered worker runs to completion, the main
manager performs its publish check; if the Body worker ran (and succeeded),
the depend manager wakes, triggers the enabled stage-2 workers, each runs
to completion, and the depend manager performs its publish check. -/
def cycleSchedule (fl : AlgoFlags) : List Lbl :=
  [.imgArrive, .mainWake, .mainTrigBody, .mainTrigFace, .mainTrigFocus]
  ++ (if fl.open_body then [.bodyConsume, .bodyDetect (some [sampleBody]), .bodyStore]
      else [])
  ++ (if fl.open_face then [.faceRun 1] else [])
  ++ (if fl.open_focus then [.focusRun true ⟨1, 2, 3, 4⟩] else [])
  ++ [.mainPub]
  ++ (if fl.open_body then
        [.depWake, .depTrigReid, .depTrigGesture, .depTrigKeypoints]
        ++ (if fl.open_reid then [.reidRun 7 ⟨100, 100, 80, 200⟩] else [])
        ++ (if fl.open_gesture then
              [.gestureConsume, .gestureInfer (some [sampleGesture]), .gestureStore]
            else [])
        ++ (if fl.open_keypoints then [.keypointsRun [[]]] else [])
        ++ [.depPub]
      else [])

/-- Body and ReID enabled, everything else disabled. -/
def flagsBR : AlgoFlags := ⟨false, true, false, false, true, false⟩

/-- Body and Gesture enabled, everything else disabled. -/
def flagsBG : AlgoFlags := ⟨false, true, true, false, false, false⟩

/-- An interleaving in which the Body worker has filled the detection
history (waking the depend manager) but has NOT yet stored its body list
into the report, and the Gesture worker stores first: every step is a real
critical section of the C++, in an order the mutexes do not forbid. -/
def raceTrace : List Lbl :=
  [.imgArrive, .mainWake, .mainTrigBody, .mainTrigFace, .mainTrigFocus, .mainPub,
   .bodyConsume, .bodyDetect (some [sampleBody]), .depWake,
   .depTrigReid, .depTrigGesture, .depTrigKeypoints,
   .gestureConsume, .gestureInfer (some [sampleGesture]), .gestureStore]

/-- Labels that are a stage manager's trigger block for a given worker. -/
def isTriggerLbl : Lbl → Wk → Bool
  | .mainTrigBody, .body => true
  | .mainTrigFace, .face => true
  | .mainTrigFocus, .focus => true
  | .depTrigReid, .reid => true
  | .depTrigGesture, .gesture => true
  | .depTrigKeypoints, .keypoints => true
  | _, _ => false

/-- Labels in which a worker wakes and clears its own trigger flag. -/
def isConsumeLbl : Lbl → Wk → Bool
  | .bodyConsume, .body => true
  | .faceRun _, .face => true
  | .focusRun _ _, .focus => true
  | .reidRun _ _, .reid => true
  | .gestureConsume, .gesture => true
  | .keypointsRun _, .keypoints => true
  | _, _ => false

/-- A scheduler state with the Body worker's trigger flag still set (used
to exercise the skip-if-triggered path at a concrete input). -/
def trigWitnessState : PipeState :=
  { initState flagsBR with mainPC := 1, calledBody := true, processNum := 1 }

/-- A concrete two-body report list for concrete alignment instances. -/
def bsW : List ReportBody :=
  [⟨⟨0, 0, 1, 1⟩, none, [], none⟩, ⟨⟨5, 5, 1, 1⟩, none, [], none⟩]

/-- The best (score, rect) pair of one history entry, with the accumulator
values the outer loop of `GetMatchBody` uses (`max_score` reset to 0; the
rect component is only meaningful when the score exceeds the threshold). -/
def entryBest (roi : RegionOfInterest) (entry : List HumanBodyInfo) : ℚ × Rect :=
  entryScan roi entry 0 ⟨0, 0, 0, 0⟩

/-- Whether a history entry contains a detection whose IoU (per the code's
own `GetIOU`) with `roi` exceeds 0.5. -/
def entryQualifies (roi : RegionOfInterest) (entry : List HumanBodyInfo) : Bool :=
  decide (half < (entryBest roi entry).1)

/-- Modelled from the spec's scan description, amended to what the loop
bounds actually visit: the history entries from the most recent down to —
and excluding — the oldest (index 0), most recent first; the result is the
first qualifying entry of that scan. -/
def specResolveTarget (hist : List (List HumanBodyInfo)) (roi : RegionOfInterest) :
    Option (List HumanBodyInfo) :=
  ((hist.drop 1).reverse).find? (entryQualifies roi)

/-! ## Theorems -/

/-- Helper: the running-maximum component of `entryScan` does not depend on
the incoming rectangle accumulator. -/
theorem entryScan_fst (roi : RegionOfInterest) (entry : List HumanBodyInfo) :
    ∀ (ms : ℚ) (tr tr' : Rect),
      (entryScan roi entry ms tr).1 = (entryScan roi entry ms tr').1 := by
  induction entry with
  | nil => intro ms tr tr'; rfl
  | cons b rest ih =>
      intro ms tr tr'
      by_cases hcond : ms < GetIOU b roi ∧ half < GetIOU b roi
      · simp only [entryScan, if_pos hcond]
      · simp only [entryScan, if_neg hcond]
        exact ih ms tr tr'

/-- Helper: when `entryScan` strictly improved on the incoming maximum, its
rectangle component does not depend on the incoming accumulator either. -/
theorem entryScan_snd (roi : RegionOfInterest) (entry : List HumanBodyInfo) :
    ∀ (ms : ℚ) (tr tr' : Rect), ms < (entryScan roi entry ms tr).1 →
      (entryScan roi entry ms tr).2 = (entryScan roi entry ms tr').2 := by
  induction entry with
  | nil =>
      intro ms tr tr' hlt
      exact absurd hlt (lt_irrefl ms)
  | cons b rest ih =>
      intro ms tr tr' hlt
      by_cases hcond : ms < GetIOU b roi ∧ half < GetIOU b roi
      · simp only [entryScan, if_pos hcond]
      · simp only [entryScan, if_neg hcond] at hlt ⊢
        exact ih ms tr tr' hlt

/-- Helper: characterisation of the `GetMatchBody` outer loop as a
first-match search over the entries it visits (indices `i` down to 1, i.e.
the reversed sublist excluding the oldest entries beyond `i`). -/
theorem scanLoop_find (hist : List (List HumanBodyInfo)) (roi : RegionOfInterest) :
    ∀ (i : ℕ), i < hist.length → ∀ (tr : Rect),
      (scanLoop hist roi i tr).map (Option.map Prod.snd)
        = .ok (((((hist.take (i + 1)).drop 1).reverse).find? (entryQualifies roi)).map
            (fun e => (entryBest roi e).2)) := by
  intro i
  induction i with
  | zero =>
      intro hi tr
      have hnil : ((hist.take 1).drop 1) = [] :=
        List.drop_eq_nil_of_le (by simp)
      simp [scanLoop, hnil, Except.map]
  | succ i ih =>
      intro hi tr
      have hii : i < hist.length := Nat.lt_of_succ_lt hi
      have hlen1 : 1 ≤ (List.take (i + 1) hist).length := by
        simp only [List.length_take]
        omega
      have hdecomp : ((hist.take (i + 1 + 1)).drop 1).reverse
          = hist.get ⟨i + 1, hi⟩ :: ((hist.take (i + 1)).drop 1).reverse := by
        rw [List.take_succ, List.getElem?_eq_getElem hi]
        rw [List.drop_append_of_le_length hlen1]
        simp [List.get_eq_getElem]
      by_cases hq : half < (entryScan roi (hist.get ⟨i + 1, hi⟩) 0 tr).1
      · have hq0 : entryQualifies roi (hist.get ⟨i + 1, hi⟩) = true := by
          unfold entryQualifies entryBest
          rw [entryScan_fst roi _ 0 ⟨0, 0, 0, 0⟩ tr]
          exact decide_eq_true hq
        have hms : (0 : ℚ) < (entryScan roi (hist.get ⟨i + 1, hi⟩) 0 tr).1 :=
          lt_trans (by decide) hq
        rw [hdecomp, List.find?_cons_of_pos _ hq0]
        simp only [scanLoop, dif_pos hi, if_pos hq, Except.map, Option.map_some']
        unfold entryBest
        rw [entryScan_snd roi _ 0 tr ⟨0, 0, 0, 0⟩ hms]
      · have hq0 : entryQualifies roi (hist.get ⟨i + 1, hi⟩) = false := by
          unfold entryQualifies entryBest
          rw [entryScan_fst roi _ 0 ⟨0, 0, 0, 0⟩ tr]
          exact decide_eq_false hq
        rw [hdecomp, List.find?_cons_of_neg _ (by simpa [List.get_eq_getElem] using hq0)]
        simp only [scanLoop, dif_pos hi, if_neg hq]
        exact ih hii _

/-- Claim C2, amended.  The resolver scans the Detection History from the
most recent entry DOWN TO INDEX 1 ONLY — the oldest entry (index 0) is
never examined (loop condition `i > 0`) — and, on a non-empty history,
returns the per-entry maximum-IoU rectangle of the first (most recent)
visited entry whose best IoU exceeds 0.5; when no visited entry qualifies
the call returns `-1`, initialises no tracker state, and `TrackingService`
answers `success = false` with the processing status unchanged.  (On
success the tracker is initialised with the single most recent detection
image `body_results_.detection_img`, not an image associated with the
matched entry — the history stores no per-entry images.) -/
theorem c2_resolver_amended (hist : List (List HumanBodyInfo)) (roi : RegionOfInterest)
    (detectionImg : ℕ) (setTrackerOk : Bool) (tracker : Option (ℕ × Rect))
    (status : ProcStatus) (hne : hist ≠ []) :
    (GetMatchBodyScan hist roi).map (Option.map Prod.snd)
      = .ok ((specResolveTarget hist roi).map (fun e => (entryBest roi e).2)) ∧
    (specResolveTarget hist roi = none →
      GetMatchBody hist roi detectionImg setTrackerOk tracker = .ok (-1, tracker) ∧
      TrackingServiceReid hist roi detectionImg setTrackerOk tracker status
        = .ok (false, tracker, status)) := by
  have hlen : hist.length ≠ 0 := fun h => hne (List.length_eq_zero.mp h)
  have hstart : startIndex hist.length = hist.length - 1 := if_neg hlen
  have hlt : hist.length - 1 < hist.length := Nat.pred_lt hlen
  have hmain := scanLoop_find hist roi (hist.length - 1) hlt ⟨0, 0, 0, 0⟩
  have htake : hist.length - 1 + 1 = hist.length := Nat.succ_pred_eq_of_pos (Nat.pos_of_ne_zero hlen)
  rw [htake, List.take_length] at hmain
  have hfirst : (GetMatchBodyScan hist roi).map (Option.map Prod.snd)
      = .ok ((specResolveTarget hist roi).map (fun e => (entryBest roi e).2)) := by
    unfold GetMatchBodyScan specResolveTarget
    rw [hstart]
    exact hmain
  refine ⟨hfirst, fun hnone => ?_⟩
  have hok : GetMatchBodyScan hist roi = .ok none := by
    rw [hnone] at hfirst
    cases hscan : GetMatchBodyScan hist roi with
    | error e => rw [hscan] at hfirst; exact absurd hfirst (by simp [Except.map])
    | ok o =>
        rw [hscan] at hfirst
        cases o with
        | none => rfl
        | some v => exact absurd hfirst (by simp [Except.map])
  constructor
  · unfold GetMatchBody
    rw [hok]
  · unfold TrackingServiceReid GetMatchBody
    rw [hok]
    rfl

/-- Witness for C2 (amended) on a concrete single-entry history. -/
theorem c2_resolver_amended_witness :
    (GetMatchBodyScan [[⟨10, 10, 50, 50⟩]] ⟨10, 10, 50, 50⟩).map (Option.map Prod.snd)
      = .ok ((specResolveTarget [[⟨10, 10, 50, 50⟩]] ⟨10, 10, 50, 50⟩).map
          (fun e => (entryBest ⟨10, 10, 50, 50⟩ e).2)) ∧
    (specResolveTarget [[⟨10, 10, 50, 50⟩]] ⟨10, 10, 50, 50⟩ = none →
      GetMatchBody [[⟨10, 10, 50, 50⟩]] ⟨10, 10, 50, 50⟩ 5 true none = .ok (-1, none) ∧
      TrackingServiceReid [[⟨10, 10, 50, 50⟩]] ⟨10, 10, 50, 50⟩ 5 true none .selecting
        = .ok (false, none, .selecting)) :=
  c2_resolver_amended [[⟨10, 10, 50, 50⟩]] ⟨10, 10, 50, 50⟩ 5 true none .selecting
    (List.cons_ne_nil _ _)

/-- Claim C2, counterexample.  A single-entry Detection History whose only
entry contains a detection identical to the requested region (IoU = 1 >
0.5) is NOT found: the loop `for (i = size-1; i > 0; --i)` never examines
index 0, so the call reports failure even though a qualifying entry exists
in the history — contradicting "it succeeds on the first entry containing a
detection whose IoU with the requested region exceeds 0.5 ... if no entry
anywhere in the whole history qualifies, the call reports failure". -/
theorem c2_counterexample :
    half < GetIOU ⟨10, 10, 50, 50⟩ ⟨10, 10, 50, 50⟩ ∧
    GetMatchBodyScan [[⟨10, 10, 50, 50⟩]] ⟨10, 10, 50, 50⟩ = .ok none ∧
    GetMatchBody [[⟨10, 10, 50, 50⟩]] ⟨10, 10, 50, 50⟩ 5 true none = .ok (-1, none) ∧
    TrackingServiceReid [[⟨10, 10, 50, 50⟩]] ⟨10, 10, 50, 50⟩ 5 true none .selecting
      = .ok (false, none, .selecting) := by
  refine ⟨by decide, rfl, rfl, rfl⟩

/-- Claim C3.  The claim states `GetIOU` clips the intersection's width and
height to non-negative, so disjoint regions yield 0.  In the code the clamp
`std::max(.., (uint32_t)0)` is applied to an UNSIGNED difference and is a
no-op: a negative true difference has already wrapped around, and after
conversion to `int` it is negative.  Two regions disjoint in both axes give
two negative factors whose product is positive: the code returns 1 for the
fully disjoint pair `(0,0,10,10)` / `(20,20,10,10)`, and `-1/3` for the
horizontally disjoint pair `(0,0,10,10)` / `(20,0,10,10)` — not 0 as the
claim requires.  The identical-regions case (1) and the contained-in-4x
case (1/4) do hold. -/
theorem c3_getiou_values :
    GetIOU ⟨0, 0, 10, 10⟩ ⟨0, 0, 10, 10⟩ = 1 ∧
    GetIOU ⟨0, 0, 10, 10⟩ ⟨0, 0, 20, 20⟩ = 1 / 4 ∧
    GetIOU ⟨0, 0, 10, 10⟩ ⟨20, 20, 10, 10⟩ = 1 ∧
    GetIOU ⟨0, 0, 10, 10⟩ ⟨20, 0, 10, 10⟩ = -1 / 3 := by
  refine ⟨by decide, ?_, by decide, ?_⟩
  · rw [show (1 / 4 : ℚ) = mkRat 1 4 by rw [Rat.mkRat_eq_div]; norm_num]
    decide
  · rw [show (-1 / 3 : ℚ) = mkRat (-1) 3 by rw [Rat.mkRat_eq_div]; norm_num]
    decide

/-- Claim C9.  With an empty Detection History the initial `size_t` index
`size() - 1` wraps to `2^64 - 1` and the first loop iteration reads
`body_infos[2^64 - 1]`, an out-of-bounds access (surfaced here as the
`Except.error` carrying that index) — the code does not return the graceful
failure the claim describes. -/
theorem c9_empty_history_oob :
    GetMatchBodyScan [] ⟨10, 10, 50, 50⟩ = .error (U64 - 1) ∧
    U64 - 1 = 18446744073709551615 := by
  exact ⟨rfl, rfl⟩

/-- Claim C8.  `AddReid` returns with the report unchanged whenever the
body list is non-empty (its guard `if (0 != body_info.infos.size()) return;`
is inverted relative to the evident intent), and its write path is reached
only for an empty body list, where the selection loop runs zero iterations
and the final statement writes `infos[0]` of the empty vector (the
out-of-bounds write surfaced as `.error 0`). -/
theorem c8_addreid_behaviour (infos : List ReportBody) (id : ℤ) (tracked : Rect)
    (h : infos ≠ []) :
    AddReid infos id tracked = .ok infos ∧ AddReid [] id tracked = .error 0 := by
  constructor
  · have hlen : infos.length ≠ 0 := by simpa using h
    simp [AddReid, hlen]
  · rfl

/-- Witness for C8 at a concrete one-element body list. -/
theorem c8_addreid_behaviour_witness :
    AddReid [⟨⟨0, 0, 5, 5⟩, none, [], none⟩] 7 ⟨1, 1, 2, 2⟩
        = .ok [⟨⟨0, 0, 5, 5⟩, none, [], none⟩] ∧
    AddReid [] 7 ⟨1, 1, 2, 2⟩ = .error 0 :=
  c8_addreid_behaviour [⟨⟨0, 0, 5, 5⟩, none, [], none⟩] 7 ⟨1, 1, 2, 2⟩
    (List.cons_ne_nil _ _)

/-- Claim C10.  `AlgoManagerService` reports `ENABLE_SUCCESS` and
`DISABLE_SUCCESS` unconditionally, and `SetAlgoState` with an algorithm
identifier outside the six known modules falls through the `default` case
and changes no enable flag. -/
theorem c10_algomanager (algo_enable algo_disable : List ℕ) (flags : AlgoFlags)
    (m : ℕ) (value : Bool)
    (hm : m ∉ [ALGO_FACE, ALGO_BODY, ALGO_GESTURE, ALGO_KEYPOINTS, ALGO_REID, ALGO_FOCUS]) :
    (AlgoManagerService algo_enable algo_disable flags).2 = (ENABLE_SUCCESS, DISABLE_SUCCESS) ∧
    SetAlgoState flags m value = flags := by
  constructor
  · rfl
  · have h : m ≠ ALGO_FACE ∧ m ≠ ALGO_BODY ∧ m ≠ ALGO_GESTURE ∧ m ≠ ALGO_KEYPOINTS ∧
        m ≠ ALGO_REID ∧ m ≠ ALGO_FOCUS := by
      simpa [not_or] using hm
    simp [SetAlgoState, h.1, h.2.1, h.2.2.1, h.2.2.2.1, h.2.2.2.2.1, h.2.2.2.2.2]

/-- Witness for C10 with the unknown identifier 6. -/
theorem c10_algomanager_witness :
    (AlgoManagerService [ALGO_BODY] [ALGO_FACE] allClosed).2
        = (ENABLE_SUCCESS, DISABLE_SUCCESS) ∧
    SetAlgoState allClosed 6 true = allClosed :=
  c10_algomanager [ALGO_BODY] [ALGO_FACE] allClosed 6 true (by decide)

/-- Claim C5, counterexample.  `on_activate` SUCCEEDS even when the remote
start call times out or fails (the completion callback's boolean is
discarded by `CallService`), and a FAILED `on_deactivate` has already
stopped the threads, reset both trackers and cleared every enable flag
before the stop call was attempted — contradicting "the lifecycle state is
unchanged: ... a failed on_deactivate leaves threads, tracker state, and
the algorithm-enable flags as they were before the call". -/
theorem c5_counterexample :
    (on_activate ⟨false, false, allClosed, false, false, .selecting⟩ true .timedOut).1
        = .SUCCESS ∧
    (on_activate ⟨false, false, allClosed, false, false, .selecting⟩ true .failure).1
        = .SUCCESS ∧
    (on_deactivate ⟨true, true, ⟨true, true, true, true, true, true⟩, true, true, .tracking⟩
        false .success).1 = .FAILURE ∧
    (on_deactivate ⟨true, true, ⟨true, true, true, true, true, true⟩, true, true, .tracking⟩
        false .success).2 = ⟨false, false, allClosed, false, false, .tracking⟩ :=
  ⟨rfl, rfl, rfl, rfl⟩

/-- Claim C5, amended.  `CallService` returns false exactly when the camera
service is not available within the bounded (10 s) wait, independently of
the remote call's own outcome; `on_activate` fails, with the state
untouched, exactly in that case; `on_deactivate` always tears down threads,
trackers and enable flags (`ResetAlgo`) regardless of the stop call's
outcome, and reports failure when the service is unavailable. -/
theorem c5_callservice_amended (st : NodeState) (remote : RemoteOutcome) :
    CallService false remote = false ∧
    CallService true remote = true ∧
    on_activate st false remote = (.FAILURE, st) ∧
    (∀ avail : Bool, (on_deactivate st avail remote).2 =
      ResetAlgo { st with is_activate := false, threadsRunning := false }) ∧
    (on_deactivate st false remote).1 = .FAILURE := by
  refine ⟨rfl, rfl, rfl, ?_, rfl⟩
  intro avail
  cases avail <;> rfl

/-- Helper for C4: when no observed frame has an acceptable pose and the
pose-failure codes stay clear of the reserved codes 0, 17 and 3, the
enrollment loop exits with `get_face_timeout` still true and publishes no
terminal code. -/
theorem faceDetLoop_all_pose_fail (obs : List EnrollObs)
    (h : ∀ o ∈ obs, o.faceDetect = true ∧ o.poseRet ≠ 0 ∧ o.poseRet ≠ 17 ∧ o.poseRet ≠ 3) :
    (faceDetLoop obs true).2 = true ∧
    (3 : ℤ) ∉ (faceDetLoop obs true).1 ∧
    (0 : ℤ) ∉ (faceDetLoop obs true).1 ∧
    (17 : ℤ) ∉ (faceDetLoop obs true).1 := by
  induction obs with
  | nil => simp [faceDetLoop]
  | cons o rest ih =>
      obtain ⟨hfd, h0, h17, h3⟩ := h o (List.mem_cons_self o rest)
      have hrest := ih fun x hx => h x (List.mem_cons_of_mem _ hx)
      by_cases hc : o.elapsed < 40 ∧ o.faceDetect
      · have hret : (if o.poseRet = 0 then (if o.duplicateHigh then (17 : ℤ) else 0)
            else o.poseRet) = o.poseRet := if_neg h0
        have hterm : ¬(o.poseRet = 0 ∨ o.poseRet = 17) := by tauto
        simp only [faceDetLoop, if_pos hc, hret, if_neg hterm]
        refine ⟨hrest.1, ?_, ?_, ?_⟩
        · intro hmem
          rcases List.mem_cons.mp hmem with heq | hmemr
          · exact h3 heq.symm
          · exact hrest.2.1 hmemr
        · intro hmem
          rcases List.mem_cons.mp hmem with heq | hmemr
          · exact h0 heq.symm
          · exact hrest.2.2.1 hmemr
        · intro hmem
          rcases List.mem_cons.mp hmem with heq | hmemr
          · exact h17 heq.symm
          · exact hrest.2.2.2 hmemr
      · simp [faceDetLoop, if_neg hc]

/-- Claim C4, amended.  In a run whose identity is valid, where no captured
frame passes the pose check within the deadline (and the external
`checkFacePose` failure codes are distinct from the reserved codes 0, 17
and 3) and no cancel occurs, exactly one TIMEOUT event (code 3) is
published, as the final event of the run, and no OK (0) or DUPLICATE (17)
event occurs; the per-frame pose-failure codes are, however, also published
(one per examined frame), and neither INVALID_ARGS nor CANCELLED is ever a
published event (they are synchronous service results / pure
suppression). -/
theorem c4_timeout_amended (obs : List EnrollObs)
    (h : ∀ o ∈ obs, o.faceDetect = true ∧ o.poseRet ≠ 0 ∧ o.poseRet ≠ 17 ∧ o.poseRet ≠ 3) :
    FaceDetProc obs true = (faceDetLoop obs true).1 ++ [3] ∧
    (FaceDetProc obs true).count 3 = 1 ∧
    (FaceDetProc obs true).getLast? = some 3 ∧
    (0 : ℤ) ∉ FaceDetProc obs true ∧
    (17 : ℤ) ∉ FaceDetProc obs true := by
  obtain ⟨hg, h3, h0, h17⟩ := faceDetLoop_all_pose_fail obs h
  have he : FaceDetProc obs true = (faceDetLoop obs true).1 ++ [3] := by
    simp only [FaceDetProc]
    rw [hg]
    simp
  refine ⟨he, ?_, ?_, ?_, ?_⟩
  · rw [he, List.count_append]
    rw [List.count_eq_zero.mpr h3]
    rfl
  · rw [he]
    exact List.getLast?_concat _
  · rw [he]
    simp [List.mem_append, h0]
  · rw [he]
    simp [List.mem_append, h17]

/-- Witness for C4 (amended) on a one-frame run with pose code 5. -/
theorem c4_timeout_amended_witness :
    FaceDetProc [⟨0, true, 5, false⟩] true
        = (faceDetLoop [⟨0, true, 5, false⟩] true).1 ++ [3] ∧
    (FaceDetProc [⟨0, true, 5, false⟩] true).count 3 = 1 ∧
    (FaceDetProc [⟨0, true, 5, false⟩] true).getLast? = some 3 ∧
    (0 : ℤ) ∉ FaceDetProc [⟨0, true, 5, false⟩] true ∧
    (17 : ℤ) ∉ FaceDetProc [⟨0, true, 5, false⟩] true :=
  c4_timeout_amended [⟨0, true, 5, false⟩] (by decide)

/-- Claim C4, counterexample.  A run cancelled before any acceptable pose
publishes NO event at all — in particular no CANCELLED event (the cancel
also suppresses the timeout publication), so the terminal outcome CANCELLED
is never "published exactly once"; likewise an empty identity yields only
the synchronous service result `-1`, spawns no enrollment task and
publishes no INVALID_ARGS event. -/
theorem c4_counterexample :
    FaceDetProc [⟨0, false, 5, false⟩] false = [] ∧
    addFaceRequest 0 = (-1, false) :=
  ⟨rfl, rfl⟩

/-- Helper: a label list accepted by the guards from `σ` is a genuine
interleaving, so its end state is reachable. -/
theorem accepts_reach : ∀ (ls : List Lbl) (σ : PipeState),
    Accepts ls σ = true → Reach σ (runLbls ls σ) := by
  intro ls
  induction ls with
  | nil =>
      intro σ _
      exact Relation.ReflTransGen.refl
  | cons l ls ih =>
      intro σ h
      simp only [Accepts, Bool.and_eq_true] at h
      exact Relation.ReflTransGen.head ⟨l, h.1, rfl⟩ (ih (app l σ) h.2)

set_option maxHeartbeats 2000000 in
/-- Claim C7.  In every step of the scheduler: a manager trigger block
finding the worker's flag still set changes neither the flag nor the shared
outstanding counter (re-triggering is skipped); a trigger flag only ever
becomes set through that worker's trigger block, from the clear state, and
each such set comes with exactly one counter increment; and a set flag is
only ever cleared by the worker's own wake-up (so a flag is never set twice
without being consumed in between, and each worker — a single sequential
loop — never runs overlapping invocations). -/
theorem c7_trigger_protocol (l : Lbl) (σ σ' : PipeState) (w : Wk) (hstep : Step l σ σ') :
    (isTriggerLbl l w = true → calledOf σ w = true →
        calledOf σ' w = true ∧ σ'.processNum = σ.processNum) ∧
    (calledOf σ w = false → calledOf σ' w = true →
        isTriggerLbl l w = true ∧ σ'.processNum = σ.processNum + 1) ∧
    (calledOf σ w = true → calledOf σ' w = false → isConsumeLbl l w = true) := by
  obtain ⟨hen, rfl⟩ := hstep
  cases l <;> cases w <;>
    simp_all only [en, app, calledOf, isTriggerLbl, isConsumeLbl] <;>
    (repeat' split) <;>
    simp_all

/-- Witness for C7: the Body trigger block at a state whose flag is still
set skips the re-trigger. -/
theorem c7_trigger_protocol_witness :
    calledOf (app .mainTrigBody trigWitnessState) Wk.body = true ∧
    (app .mainTrigBody trigWitnessState).processNum = trigWitnessState.processNum :=
  (c7_trigger_protocol .mainTrigBody trigWitnessState (app .mainTrigBody trigWitnessState)
      Wk.body ⟨by decide, rfl⟩).1 (by decide) (by decide)

/-- Claim C1, counterexample.  With the Body and ReID algorithms enabled, a
complete cycle (one frame in, everything drained) publishes NO report from
stage 1 — `MainAlgoManager` publishes only when no stage-2 algorithm is
enabled (line 400) — and one report from stage 2; so "each stage that has
at least one enabled worker publishes exactly one Frame Report for that
cycle" is false, and there is no per-stage counter: both managers gate on
the single shared `algo_proc_.process_num`. -/
theorem c1_counterexample :
    Accepts (cycleSchedule flagsBR) (initState flagsBR) = true ∧
    Reach (initState flagsBR) (runLbls (cycleSchedule flagsBR) (initState flagsBR)) ∧
    Quiescent (runLbls (cycleSchedule flagsBR) (initState flagsBR)) = true ∧
    flagsBR.open_body = true ∧
    flagsBR.open_reid = true ∧
    mainPubCount (runLbls (cycleSchedule flagsBR) (initState flagsBR)) = 0 ∧
    depPubCount (runLbls (cycleSchedule flagsBR) (initState flagsBR)) = 1 := by
  refine ⟨by decide, accepts_reach _ _ (by decide), by decide, rfl, rfl, by decide, by decide⟩

/-- Claim C1, amended.  Both stage managers gate their publish on the ONE
shared outstanding counter `algo_proc_.process_num` reaching zero.  Under
the canonical sequential schedule of one cycle (every triggered worker
completes before the publish check), for EVERY subset of enabled
algorithms: stage 1 publishes exactly one report iff no stage-2 algorithm
is enabled and at least one stage-1 algorithm is enabled (otherwise zero),
and stage 2 publishes exactly one report iff Body is enabled (its worker
feeds the stage-2 wake-up) and at least one stage-2 algorithm is enabled
(otherwise zero — in particular a stage-2-only configuration never
publishes at all), after which the system is quiescent again. -/
theorem c1_cycle_amended (fa bo ge ke re fo : Bool) :
    Accepts (cycleSchedule ⟨fa, bo, ge, ke, re, fo⟩) (initState ⟨fa, bo, ge, ke, re, fo⟩)
        = true ∧
    Quiescent (runLbls (cycleSchedule ⟨fa, bo, ge, ke, re, fo⟩)
        (initState ⟨fa, bo, ge, ke, re, fo⟩)) = true ∧
    mainPubCount (runLbls (cycleSchedule ⟨fa, bo, ge, ke, re, fo⟩)
        (initState ⟨fa, bo, ge, ke, re, fo⟩))
      = (if (!ge && !ke && !re) && (bo || fa || fo) then 1 else 0) ∧
    depPubCount (runLbls (cycleSchedule ⟨fa, bo, ge, ke, re, fo⟩)
        (initState ⟨fa, bo, ge, ke, re, fo⟩))
      = (if bo && (ge || ke || re) then 1 else 0) := by
  cases fa <;> cases bo <;> cases ge <;> cases ke <;> cases re <;> cases fo <;> decide

/-- Claim C6, counterexample.  A reachable interleaving (Body and Gesture
enabled): the Body worker appends to Detection History and wakes the depend
manager, the Gesture worker is triggered, runs, and STORES into the report
while the Body worker's own store is still pending (`bodyPhase = 2`), so
the report's body list is still empty: the gesture write `infos[0]` is out
of bounds, and stage 2 wrote before the cycle's body list was finalized —
refuting "stage 2 only writes after that cycle's body list is
finalized". -/
theorem c6_counterexample :
    Accepts raceTrace (initState flagsBG) = true ∧
    Reach (initState flagsBG) (runLbls raceTrace (initState flagsBG)) ∧
    (runLbls raceTrace (initState flagsBG)).oobWrite = true ∧
    (runLbls raceTrace (initState flagsBG)).bodyPhase = 2 ∧
    (runLbls raceTrace (initState flagsBG)).report.bodyInfos = [] := by
  refine ⟨by decide, accepts_reach _ _ (by decide), by decide, by decide, by decide⟩

/-- Helper for C6: length preservation of the gesture conversion loop. -/
theorem convertGestureGo_length (gs : List GestureEntry) :
    ∀ (bs : List ReportBody), gs.length ≤ bs.length →
      (convertGestureGo gs bs).length = bs.length := by
  induction gs with
  | nil =>
      intro bs _
      cases bs <;> rfl
  | cons g gs ih =>
      intro bs hlen
      cases bs with
      | nil => simp at hlen
      | cons b bs =>
          simp only [convertGestureGo, List.length_cons]
          rw [ih bs (by simpa using hlen)]

/-- Helper for C6: positional characterisation of the gesture conversion
loop. -/
theorem convertGestureGo_get (gs : List GestureEntry) :
    ∀ (bs : List ReportBody), gs.length ≤ bs.length → ∀ (i : ℕ),
      (convertGestureGo gs bs)[i]? =
        match gs[i]? with
        | some g => bs[i]?.map (fun b => { b with gesture := some g })
        | none => bs[i]? := by
  induction gs with
  | nil =>
      intro bs _ i
      simp [convertGestureGo]
  | cons g gs ih =>
      intro bs hlen i
      cases bs with
      | nil => simp at hlen
      | cons b bs =>
          cases i with
          | zero => simp [convertGestureGo]
          | succ i =>
              simp only [convertGestureGo, List.getElem?_cons_succ]
              exact ih bs (by simpa using hlen) i

/-- Helper for C6: length preservation of the keypoints conversion loop. -/
theorem convertKeypointsGo_length (kps : List (List (ℚ × ℚ))) :
    ∀ (bs : List ReportBody), kps.length ≤ bs.length →
      (convertKeypointsGo kps bs).length = bs.length := by
  induction kps with
  | nil =>
      intro bs _
      cases bs <;> rfl
  | cons pts kps ih =>
      intro bs hlen
      cases bs with
      | nil => simp at hlen
      | cons b bs =>
          simp only [convertKeypointsGo, List.length_cons]
          rw [ih bs (by simpa using hlen)]

/-- Helper for C6: positional characterisation of the keypoints conversion
loop. -/
theorem convertKeypointsGo_get (kps : List (List (ℚ × ℚ))) :
    ∀ (bs : List ReportBody), kps.length ≤ bs.length → ∀ (i : ℕ),
      (convertKeypointsGo kps bs)[i]? =
        match kps[i]? with
        | some pts => bs[i]?.map
            (fun b => { b with keypoints := resizeKeypoints b.keypoints ++ pts })
        | none => bs[i]? := by
  induction kps with
  | nil =>
      intro bs _ i
      simp [convertKeypointsGo]
  | cons pts kps ih =>
      intro bs hlen i
      cases bs with
      | nil => simp at hlen
      | cons b bs =>
          cases i with
          | zero => simp [convertKeypointsGo]
          | succ i =>
              simp only [convertKeypointsGo, List.getElem?_cons_succ]
              exact ih bs (by simpa using hlen) i

/-- Claim C6, amended.  The gesture/keypoints conversions write POSITIONALLY
onto the report's body list as it is AT WRITE TIME: when the inference list
is no longer than that body list, entry `i` of the inference data is
attached to body `i` (other fields of that body and all bodies beyond the
inference list unchanged, length preserved); a longer inference list is an
out-of-bounds write.  The scheduler does NOT guarantee that the body list
at write time is the one of the same cycle: stage 2 is woken by the
history append, which precedes the Body worker's report store (see the C6
counterexample trace). -/
theorem c6_alignment_amended (gs : List GestureEntry) (kps : List (List (ℚ × ℚ)))
    (bs : List ReportBody) (hg : gs.length ≤ bs.length) (hk : kps.length ≤ bs.length) :
    ConvertGesture gs bs = some (convertGestureGo gs bs) ∧
    (convertGestureGo gs bs).length = bs.length ∧
    (∀ i : ℕ, (convertGestureGo gs bs)[i]? =
      match gs[i]? with
      | some g => bs[i]?.map (fun b => { b with gesture := some g })
      | none => bs[i]?) ∧
    ConvertKeypoints kps bs = some (convertKeypointsGo kps bs) ∧
    (convertKeypointsGo kps bs).length = bs.length ∧
    (∀ i : ℕ, (convertKeypointsGo kps bs)[i]? =
      match kps[i]? with
      | some pts => bs[i]?.map
          (fun b => { b with keypoints := resizeKeypoints b.keypoints ++ pts })
      | none => bs[i]?) := by
  refine ⟨?_, convertGestureGo_length gs bs hg, convertGestureGo_get gs bs hg, ?_,
    convertKeypointsGo_length kps bs hk, convertKeypointsGo_get kps bs hk⟩
  · unfold ConvertGesture
    rw [if_pos hg]
  · unfold ConvertKeypoints
    rw [if_pos hk]

/-- Witness for C6 (amended) at a concrete one-gesture, two-body input. -/
theorem c6_alignment_amended_witness :
    ConvertGesture [sampleGesture] bsW = some (convertGestureGo [sampleGesture] bsW) ∧
    (convertGestureGo [sampleGesture] bsW).length = bsW.length ∧
    ConvertKeypoints [[]] bsW = some (convertKeypointsGo [[]] bsW) :=
  have h := c6_alignment_amended [sampleGesture] [[]] bsW (by decide) (by decide)
  ⟨h.1, h.2.1, h.2.2.2.1⟩

end CyberdogVision
